import Mathlib

/-!
Shallow embedding of the normalization layer of `src/streamlit_app.py`:
the percentage coercer `coerce_to_percentage` / `parse_val` (lines 12-32)
and the stage classifier `infer_stage` with its `stage_map` vocabulary
(lines 117-142, the Companies tab).

Modelling conventions:
* A raw spreadsheet cell is `Option String`: `none` models a missing/NaN
  cell (the `pd.isna(v)` branch), `some s` models `str(v)` of any other
  cell content.
* Python floats are modelled as exact rationals `ℚ`; every numeric value
  appearing in the claims is exactly representable, and `float('nan')`,
  the explicit unparseable marker, is modelled as `none : Option ℚ`.
* Python `float(s)` is modelled on its decimal grammar (optional
  surrounding whitespace, optional sign, digit part with optional point,
  optional exponent).  The words `inf`/`nan` and underscore digit
  separators that CPython additionally accepts are outside every claim
  and are not modelled; on them the model returns `none`.
-/

/-- Model of Python `str.strip()`: drop leading and trailing whitespace. -/
def pyStrip (cs : List Char) : List Char :=
  ((cs.dropWhile Char.isWhitespace).reverse.dropWhile Char.isWhitespace).reverse

/-- Pointwise action of `s.replace(",", ".")` on one character. -/
def mapComma (c : Char) : Char := if c = ',' then '.' else c

/-- Cleaning pipeline of `parse_val` (lines 20-23):
`str(v).strip()`, then `.replace(",", ".")`, then `.replace(" ", "")`
(this removes only the space character U+0020, not tabs or other
whitespace), then one trailing `%` is dropped when present. -/
def clean (cs : List Char) : List Char :=
  let s := ((pyStrip cs).map mapComma).filter (fun c => c != ' ')
  if s.getLast? = some '%' then s.dropLast else s

/-- Numeric value of a run of decimal digit characters. -/
def digitsVal (cs : List Char) : ℕ :=
  cs.foldl (fun a c => 10 * a + (c.toNat - 48)) 0

/-- Exponent suffix of a Python float literal: either nothing, or
`e`/`E`, an optional sign, and at least one digit ending the string. -/
def parseExp : List Char → Option ℤ
  | [] => some 0
  | c :: r =>
    if c == 'e' || c == 'E' then
      match r with
      | '-' :: r2 =>
        let ed := r2.takeWhile Char.isDigit
        if ed.isEmpty || !(r2.dropWhile Char.isDigit).isEmpty then none
        else some (-(digitsVal ed : ℤ))
      | '+' :: r2 =>
        let ed := r2.takeWhile Char.isDigit
        if ed.isEmpty || !(r2.dropWhile Char.isDigit).isEmpty then none
        else some (digitsVal ed : ℤ)
      | r2 =>
        let ed := r2.takeWhile Char.isDigit
        if ed.isEmpty || !(r2.dropWhile Char.isDigit).isEmpty then none
        else some (digitsVal ed : ℤ)
    else none

/-- Model of Python `float(s)` as an exact rational: optional surrounding
whitespace, optional sign, a digit part with optional decimal point
(at least one digit required), optional exponent.  `none` models the
`ValueError` that the source catches. -/
def pyFloat (cs0 : List Char) : Option ℚ :=
  let cs := pyStrip cs0
  let p :=
    match cs with
    | '-' :: r => (true, r)
    | '+' :: r => (false, r)
    | _ => (false, cs)
  let neg := p.1
  let cs1 := p.2
  let ip := cs1.takeWhile Char.isDigit
  let cs2 := cs1.dropWhile Char.isDigit
  let q :=
    match cs2 with
    | '.' :: r => (r.takeWhile Char.isDigit, r.dropWhile Char.isDigit)
    | _ => (([] : List Char), cs2)
  let fp := q.1
  let cs3 := q.2
  if ip.isEmpty && fp.isEmpty then none
  else
    match parseExp cs3 with
    | none => none
    | some e =>
      let mant : ℚ := (digitsVal ip : ℚ) + (digitsVal fp : ℚ) / (10 : ℚ) ^ fp.length
      let v := mant * (10 : ℚ) ^ e
      some (if neg then -v else v)

/-- Model of `parse_val` (lines 17-31): `none` in, `none` out (NaN cell);
otherwise clean the text, try to parse a float, rescale a value in
[0, 1] by 100, clamp into [0, 100]; a parse failure yields the
unparseable marker `none` (the caught exception returning NaN). -/
def parse_val (v : Option String) : Option ℚ :=
  match v with
  | none => none
  | some sv =>
    match pyFloat (clean sv.data) with
    | none => none
    | some num =>
      some (max 0 (min 100 (if 0 ≤ num ∧ num ≤ 1 then num * 100 else num)))

/-- Model of `coerce_to_percentage` (lines 12-32): `series.apply(parse_val)`. -/
def coerce_to_percentage (series : List (Option String)) : List (Option ℚ) :=
  series.map parse_val

/-- Model of Python `str.lower()` on the character list. -/
def lowerChars (cs : List Char) : List Char := cs.map Char.toLower

/-- Does the needle occur verbatim at the head of the haystack? -/
def headMatch : List Char → List Char → Bool
  | [], _ => true
  | _ :: _, [] => false
  | n :: ns, h :: hs => n == h && headMatch ns hs

/-- Model of the Python substring test `needle in hay`. -/
def containsChars : List Char → List Char → Bool
  | [], needle => needle.isEmpty
  | h :: hs, needle => headMatch needle (h :: hs) || containsChars hs needle

/-- Model of `stage_map` (lines 117-127): the fixed ordered stage vocabulary. -/
def stage_map : List String :=
  ["lead", "contacted", "meeting", "proposal", "negotiation", "waiting",
   "contract", "won", "lost"]

/-- Model of the `text` accumulation in `infer_stage` (lines 130-133): for
each of Status then Comments that is present and non-null, append a space
followed by the lower-cased field text. -/
def buildText (status comments : Option String) : List Char :=
  let t : List Char := []
  let t :=
    match status with
    | some s => t ++ ' ' :: lowerChars s.data
    | none => t
  match comments with
  | some c => t ++ ' ' :: lowerChars c.data
  | none => t

/-- Model of Python `s.capitalize()` for the ASCII, already-lowercase
labels of `stage_map`: upper-case the first character. -/
def capitalizeStr (s : String) : String :=
  match s.data with
  | [] => ""
  | c :: cs => String.mk (c.toUpper :: cs)

/-- Model of `infer_stage` (lines 129-142): an override returns
"Negotiation" whenever "contract" or "negotiation" occurs in the joined
lower-cased text; otherwise the first `stage_map` keyword occurring as a
substring wins, capitalized; otherwise "Unspecified". -/
def infer_stage (status comments : Option String) : String :=
  if containsChars (buildText status comments) "contract".data
      || containsChars (buildText status comments) "negotiation".data then
    "Negotiation"
  else
    match stage_map.find? (fun s => containsChars (buildText status comments) s.data) with
    | some s => capitalizeStr s
    | none => "Unspecified"

-- Sanity checks of the model on the docstring examples of the source.
example : parse_val (some "25") = some 25 := by with_unfolding_all rfl
example : parse_val (some "25%") = some 25 := by with_unfolding_all rfl
example : parse_val (some "0.25") = some 25 := by with_unfolding_all rfl
example : parse_val (some " 50 % ") = some 50 := by with_unfolding_all rfl
example : infer_stage none none = "Unspecified" := by decide
example : infer_stage (some "In contract phase") none = "Negotiation" := by decide
example : infer_stage (some "won lead deal") none = "Lead" := by decide
example : infer_stage none (some "Meeting booked") = "Meeting" := by decide

/-- Helper: on a successful float parse the coercer rescales and clamps. -/
theorem parse_val_some (sv : String) (num : ℚ) (h : pyFloat (clean sv.data) = some num) :
    parse_val (some sv)
      = some (max 0 (min 100 (if 0 ≤ num ∧ num ≤ 1 then num * 100 else num))) := by
  simp only [parse_val, h]

/-- Helper: a failed float parse yields the unparseable marker. -/
theorem parse_val_none_of_fail (sv : String) (h : pyFloat (clean sv.data) = none) :
    parse_val (some sv) = none := by
  simp only [parse_val, h]

/-- Helper: every numeric output of the coercer lies in [0, 100]. -/
theorem parse_val_mem_range (v : Option String) (q : ℚ) (h : parse_val v = some q) :
    0 ≤ q ∧ q ≤ 100 := by
  match v with
  | none => simp [parse_val] at h
  | some sv =>
    cases hp : pyFloat (clean sv.data) with
    | none => rw [parse_val_none_of_fail sv hp] at h; cases h
    | some num =>
      rw [parse_val_some sv num hp] at h
      injection h with h2
      rw [← h2]
      exact ⟨le_max_left _ _, max_le (by norm_num) (min_le_left _ _)⟩

/-- C1: for every raw cell value whose cleaned text parses as a number
`num`, the coercer returns `num * 100` when `0 ≤ num ≤ 1` and
`clamp(num, 0, 100)` otherwise; in particular `"1" ↦ 100`, `"150" ↦ 100`,
`"-5" ↦ 0`. -/
theorem c1_fraction_rescale_and_clamp :
    (∀ (sv : String) (num : ℚ), pyFloat (clean sv.data) = some num →
        parse_val (some sv)
          = some (if 0 ≤ num ∧ num ≤ 1 then num * 100 else max 0 (min 100 num)))
    ∧ parse_val (some "1") = some 100
    ∧ parse_val (some "150") = some 100
    ∧ parse_val (some "-5") = some 0 := by
  refine ⟨?_, by with_unfolding_all rfl, by with_unfolding_all rfl,
    by with_unfolding_all rfl⟩
  intro sv num h
  rw [parse_val_some sv num h]
  by_cases hp : 0 ≤ num ∧ num ≤ 1
  · rw [if_pos hp, if_pos hp, min_eq_right (by linarith [hp.2]),
      max_eq_right (mul_nonneg hp.1 (by norm_num))]
  · rw [if_neg hp, if_neg hp]

/-- C1 witness: the general clause applied to the concrete input "150". -/
theorem c1_fraction_rescale_and_clamp_witness :
    parse_val (some "150")
      = some (if (0 : ℚ) ≤ 150 ∧ (150 : ℚ) ≤ 1 then 150 * 100
          else max 0 (min 100 150)) :=
  c1_fraction_rescale_and_clamp.1 "150" 150 (by with_unfolding_all rfl)

/-- C2: every input yields exactly one result, and that result is either
the unparseable marker or a number within [0, 100]; mapping the coercer
over a series drops no row. -/
theorem c2_range_invariant_totality :
    (∀ v : Option String,
        parse_val v = none ∨ ∃ q : ℚ, parse_val v = some q ∧ 0 ≤ q ∧ q ≤ 100)
    ∧ ∀ series : List (Option String),
        (coerce_to_percentage series).length = series.length := by
  constructor
  · intro v
    cases hv : parse_val v with
    | none => exact Or.inl rfl
    | some q => exact Or.inr ⟨q, rfl, parse_val_mem_range v q hv⟩
  · intro series
    simp [coerce_to_percentage]

/-- C3: null cells and every text whose cleaned form does not parse as a
number map to the explicit unparseable marker — in particular the empty
string and "abc" — and that marker is distinct from the numeric value 0. -/
theorem c3_unparseable_marker :
    (∀ sv : String, pyFloat (clean sv.data) = none → parse_val (some sv) = none)
    ∧ parse_val none = none
    ∧ parse_val (some "") = none
    ∧ parse_val (some "abc") = none
    ∧ (none : Option ℚ) ≠ some 0 := by
  refine ⟨fun sv h => parse_val_none_of_fail sv h, rfl, by decide, by decide, by decide⟩

/-- C3 witness: the universal clause applied to the non-numeric cell
text "n/a". -/
theorem c3_unparseable_marker_witness :
    parse_val (some "n/a") = none :=
  c3_unparseable_marker.1 "n/a" (by decide)

/-- C4: whenever "contract" or "negotiation" occurs in the lower-cased
space-joined status text, the classifier returns "Negotiation"
immediately, and in particular on status "In contract phase". -/
theorem c4_override_negotiation :
    (∀ status comments : Option String,
        containsChars (buildText status comments) "contract".data = true
          ∨ containsChars (buildText status comments) "negotiation".data = true →
        infer_stage status comments = "Negotiation")
    ∧ infer_stage (some "In contract phase") none = "Negotiation" := by
  refine ⟨?_, by decide⟩
  intro status comments h
  rcases h with h | h <;> simp [infer_stage, h]

/-- C4 witness: the override clause applied to status "In contract phase". -/
theorem c4_override_negotiation_witness :
    infer_stage (some "In contract phase") none = "Negotiation" :=
  c4_override_negotiation.1 (some "In contract phase") none (Or.inl (by decide))

/-- C5: without the override keywords, the classifier returns the first
keyword of the ordered vocabulary occurring in the text (capitalized);
when no keyword occurs it returns "Unspecified"; in particular two null
fields give "Unspecified" and "won lead deal" gives "Lead" under
first-match-wins. -/
theorem c5_ordered_scan_first_match :
    (∀ (status comments : Option String) (k : String),
        containsChars (buildText status comments) "contract".data = false →
        containsChars (buildText status comments) "negotiation".data = false →
        stage_map.find? (fun s => containsChars (buildText status comments) s.data)
          = some k →
        infer_stage status comments = capitalizeStr k)
    ∧ (∀ status comments : Option String,
        (∀ k ∈ stage_map, containsChars (buildText status comments) k.data = false) →
        infer_stage status comments = "Unspecified")
    ∧ infer_stage none none = "Unspecified"
    ∧ infer_stage (some "won lead deal") none = "Lead" := by
  refine ⟨?_, ?_, by decide, by decide⟩
  · intro status comments k hc hn hfind
    simp [infer_stage, hc, hn, hfind]
  · intro status comments h
    have hc : containsChars (buildText status comments) "contract".data = false :=
      h "contract" (by decide)
    have hn : containsChars (buildText status comments) "negotiation".data = false :=
      h "negotiation" (by decide)
    have hfind :
        stage_map.find? (fun s => containsChars (buildText status comments) s.data)
          = none := by
      rw [List.find?_eq_none]
      intro k hk
      simp [h k hk]
    simp [infer_stage, hc, hn, hfind]

/-- C5 witness: the first-match clause applied to status "won lead deal". -/
theorem c5_ordered_scan_first_match_witness :
    infer_stage (some "won lead deal") none = capitalizeStr "lead" :=
  c5_ordered_scan_first_match.1 (some "won lead deal") none "lead"
    (by decide) (by decide) (by decide)

/-- C6: locale and decoration are normalized before parsing: commas
become periods, internal spaces are removed, one trailing percent sign
is dropped; hence "50 %", "50,0%" and "0,5" all coerce to 50. -/
theorem c6_locale_normalization :
    clean "0,5".data = "0.5".data
    ∧ clean "50 %".data = "50".data
    ∧ clean "50,0%".data = "50.0".data
    ∧ parse_val (some "50 %") = some 50
    ∧ parse_val (some "50,0%") = some 50
    ∧ parse_val (some "0,5") = some 50 := by
  refine ⟨by decide, by decide, by decide, by with_unfolding_all rfl,
    by with_unfolding_all rfl, by with_unfolding_all rfl⟩

/-- C7 counterexample: idempotence fails on the valid percentage
"0.005": it coerces to 0.5, Python renders that float as the text
"0.5", and re-coercing "0.5" gives 50, not 0.5 — the fraction heuristic
fires a second time on any output lying in (0, 1]. -/
theorem c7_not_idempotent_counterexample :
    parse_val (some "0.005") = some (1 / 2)
    ∧ parse_val (some "0.5") = some 50
    ∧ (1 / 2 : ℚ) ≠ 50 := by
  refine ⟨by with_unfolding_all rfl, by with_unfolding_all rfl, by norm_num⟩

/-- C7 amended: for a valid percentage string whose coerced value is 0 or
greater than 1, re-coercing any textual representation of that value
reproduces it; only outputs inside (0, 1] (from inputs below 0.01) break
idempotence. -/
theorem c7_idempotence_outside_unit_interval :
    ∀ (s t : String) (x : ℚ),
      parse_val (some s) = some x → (x = 0 ∨ 1 < x) →
      pyFloat (clean t.data) = some x →
      parse_val (some t) = some x := by
  intro s t x hs hx ht
  have hrange := parse_val_mem_range (some s) x hs
  rw [parse_val_some t x ht]
  rcases hx with h0 | h1
  · subst h0
    norm_num
  · have hnot : ¬ (0 ≤ x ∧ x ≤ 1) := fun hc => absurd h1 (not_lt.mpr hc.2)
    rw [if_neg hnot, min_eq_right hrange.2, max_eq_right hrange.1]

/-- C7 witness: the amended theorem applied to s = "50" and its rendered
result "50.0". -/
theorem c7_idempotence_outside_unit_interval_witness :
    parse_val (some "50.0") = some 50 :=
  c7_idempotence_outside_unit_interval "50" "50.0" 50
    (by with_unfolding_all rfl) (Or.inr (by norm_num)) (by with_unfolding_all rfl)

/-- C8: totality as a contract: a failing float parse is caught and
becomes the marker rather than an error, and the classifier always
returns exactly one label from its closed vocabulary. -/
theorem c8_total_pure :
    (∀ sv : String, pyFloat (clean sv.data) = none → parse_val (some sv) = none)
    ∧ (∀ status comments : Option String,
        infer_stage status comments = "Negotiation"
        ∨ infer_stage status comments = "Unspecified"
        ∨ ∃ k ∈ stage_map, infer_stage status comments = capitalizeStr k) := by
  constructor
  · intro sv h
    exact parse_val_none_of_fail sv h
  · intro status comments
    by_cases hc : (containsChars (buildText status comments) "contract".data
        || containsChars (buildText status comments) "negotiation".data) = true
    · left
      simp [infer_stage, hc]
    · right
      cases hf : stage_map.find?
          (fun s => containsChars (buildText status comments) s.data) with
      | none => left; simp [infer_stage, hc, hf]
      | some k =>
        right
        exact ⟨k, List.mem_of_find?_eq_some hf, by simp [infer_stage, hc, hf]⟩

/-- C8 witness: the catch clause applied to the unparseable input "abc". -/
theorem c8_total_pure_witness :
    parse_val (some "abc") = none :=
  c8_total_pure.1 "abc" (by decide)

/-- C10: a trailing percent sign is dropped before parsing and the
fraction heuristic inspects only the parsed number, so an explicit "%"
does not force the 0-100 reading: a parsed value in [0, 1] is rescaled
even then, giving "1%" ↦ 100 and "0.5%" ↦ 50, with "1%" and "1"
coercing identically. -/
theorem c10_percent_suffix_fraction_heuristic :
    (∀ (cs : List Char) (num : ℚ),
        pyFloat (clean (cs ++ ['%'])) = some num → 0 ≤ num → num ≤ 1 →
        parse_val (some (String.mk (cs ++ ['%']))) = some (num * 100))
    ∧ parse_val (some "1%") = some 100
    ∧ parse_val (some "0.5%") = some 50
    ∧ parse_val (some "1%") = parse_val (some "1") := by
  refine ⟨?_, by with_unfolding_all rfl, by with_unfolding_all rfl,
    by with_unfolding_all rfl⟩
  intro cs num h h0 h1
  have h2 : pyFloat (clean (String.mk (cs ++ ['%'])).data) = some num := h
  rw [parse_val_some _ num h2, if_pos ⟨h0, h1⟩,
    min_eq_right (by linarith), max_eq_right (mul_nonneg h0 (by norm_num))]

/-- C10 witness: the general clause applied to the input "0.5%". -/
theorem c10_percent_suffix_fraction_heuristic_witness :
    parse_val (some (String.mk ("0.5".data ++ ['%']))) = some ((1 / 2 : ℚ) * 100) :=
  c10_percent_suffix_fraction_heuristic.1 "0.5".data (1 / 2)
    (by with_unfolding_all rfl) (by norm_num) (by norm_num)

/-- Helper: dropping leading whitespace commutes with deleting spaces. -/
theorem filter_space_dropWhile (cs : List Char) :
    (cs.dropWhile Char.isWhitespace).filter (fun c => c != ' ')
      = (cs.filter (fun c => c != ' ')).dropWhile Char.isWhitespace := by
  induction cs with
  | nil => rfl
  | cons c cs ih =>
    by_cases hsp : c = ' '
    · subst hsp
      simpa [List.dropWhile_cons, List.filter_cons] using ih
    · by_cases hws : Char.isWhitespace c
      · simpa [List.dropWhile_cons, List.filter_cons, hws, hsp] using ih
      · simp [List.dropWhile_cons, List.filter_cons, hws, hsp]

/-- Helper: stripping edge whitespace commutes with deleting spaces. -/
theorem filter_space_pyStrip (cs : List Char) :
    (pyStrip cs).filter (fun c => c != ' ')
      = pyStrip (cs.filter (fun c => c != ' ')) := by
  unfold pyStrip
  rw [List.filter_reverse, filter_space_dropWhile, List.filter_reverse,
    filter_space_dropWhile]

/-- Helper: the comma-to-period substitution commutes with deleting
spaces, since it never produces or consumes a space. -/
theorem filter_space_map_comma (cs : List Char) :
    (cs.map mapComma).filter (fun c => c != ' ')
      = (cs.filter (fun c => c != ' ')).map mapComma := by
  induction cs with
  | nil => rfl
  | cons c cs ih =>
    by_cases h : c = ','
    · subst h
      simpa [mapComma, List.filter_cons] using ih
    · by_cases h2 : c = ' '
      · subst h2
        simpa [mapComma, List.filter_cons] using ih
      · simp [mapComma, h, h2, List.filter_cons, ih]

/-- Helper: the cleaning pipeline does not distinguish an input from the
same input with every space character deleted. -/
theorem clean_filter_space (cs : List Char) :
    clean (cs.filter (fun c => c != ' ')) = clean cs := by
  have key : ((pyStrip (cs.filter (fun c => c != ' '))).map mapComma).filter
        (fun c => c != ' ')
      = ((pyStrip cs).map mapComma).filter (fun c => c != ' ') := by
    rw [← filter_space_pyStrip, ← filter_space_map_comma]
    simp [List.filter_filter]
  unfold clean
  rw [key]

/-- C9 counterexample: the cleaning step removes only the space
character, not every whitespace character: inserting a tab between the
digits of "50" makes the value unparseable instead of leaving it
unchanged. -/
theorem c9_tab_not_removed_counterexample :
    parse_val (some "50") = some 50 ∧ parse_val (some "5\t0") = none := by
  refine ⟨by with_unfolding_all rfl, by decide⟩

/-- C9 amended: step 3 removes exactly the space characters (U+0020):
the coercer's result is invariant under inserting or deleting spaces
anywhere in the input, but not under tabs or other whitespace. -/
theorem c9_space_insensitive :
    ∀ s t : String,
      s.data.filter (fun c => c != ' ') = t.data.filter (fun c => c != ' ') →
      parse_val (some s) = parse_val (some t) := by
  intro s t h
  have hc : clean s.data = clean t.data := by
    rw [← clean_filter_space s.data, ← clean_filter_space t.data, h]
  simp only [parse_val, hc]

/-- C9 witness: the amended theorem applied to "5 0" and "50". -/
theorem c9_space_insensitive_witness :
    parse_val (some "5 0") = parse_val (some "50") :=
  c9_space_insensitive "5 0" "50" (by decide)
